import Mathlib

/-!
Shallow embedding of `src/main.py`, a FastAPI document-ingestion and
question-answering backend.  The pure control flow of the three request
handlers (`process_file`, `upload_documents`, `query`) is translated into
Lean functions; the external services the code delegates to (the PDF and
text loaders, the langchain text splitter, the vector store, the QA chain)
are modelled as explicit parameters or, where a claim needs their
documented behaviour, as definitions modelled from the specification.
-/

namespace Rag

/-- Metadata keys that `process_file` writes on every loaded document
(`src/main.py` lines 104-110).  Loader-supplied keys (such as pypdf's
`source`/`page`) are not modelled: no claim mentions them and the
`update` call leaves them untouched. -/
structure Metadata where
  file_name : String
  file_type : String
  page_number : Nat
  total_pages : Nat
deriving Repr, DecidableEq

/-- A langchain `Document`: page content plus metadata. -/
structure Document where
  page_content : String
  metadata : Metadata
deriving Repr, DecidableEq

/-- An uploaded file: the client-supplied filename and the raw bytes,
modelled as a string. -/
structure UploadFile where
  filename : String
  content : String
deriving Repr, DecidableEq

/-- A fastapi `HTTPException`: status code and detail message. -/
structure HTTPException where
  status_code : Nat
  detail : String
deriving Repr, DecidableEq

/-- `str()` of a starlette/fastapi `HTTPException`:
`f"{self.status_code}: {self.detail}"`. -/
def strOfExc (e : HTTPException) : String :=
  toString e.status_code ++ ": " ++ e.detail

/-- Outcome of an external document loader run on a file's bytes:
either the list of page texts it extracted, or a parse error message. -/
inductive LoaderBehavior where
  | ok (pages : List String)
  | err (msg : String)
deriving Repr, DecidableEq

/-- The external services `src/main.py` delegates to, as a parameter of the
embedding.  `pypdf_load` and `text_load` are the outcomes of `PyPDFLoader`
resp. `TextLoader` on given file bytes; `exceeds_timeout` says whether
`process_file` on that file runs longer than the 120-second bound of
`asyncio.wait_for` (`src/main.py` line 129). -/
structure Env where
  pypdf_load : String → LoaderBehavior
  text_load : String → LoaderBehavior
  exceeds_timeout : UploadFile → Bool

/-- Last index of character `c` in `cs`, or `none` (Python `str.rfind`). -/
def lastIdxOf (c : Char) (cs : List Char) : Option Nat :=
  cs.enum.foldl (fun acc p => if p.2 = c then some p.1 else acc) none

/-- `rfind` result as Python returns it: the index, or `-1`. -/
def rfindInt (c : Char) (cs : List Char) : Int :=
  match lastIdxOf c cs with
  | some i => (i : Int)
  | none => -1

/-- `str.lower()` on an extension, characterwise (ASCII; extensions are
ASCII in every claim). -/
def lowerAscii (s : String) : String :=
  String.mk (s.toList.map Char.toLower)

/-- `os.path.splitext(p)[1]`: the extension including the dot.  Python
takes the suffix from the last `.` provided it lies after the last `/` and
some character strictly between them is not a dot (so dotfiles like
`.bashrc` have no extension). -/
def splitextSuffix (p : String) : String :=
  let cs := p.toList
  let sepIndex := rfindInt '/' cs
  let dotIndex := rfindInt '.' cs
  if sepIndex < dotIndex ∧
      ((cs.drop (sepIndex + 1).toNat).take (dotIndex - sepIndex - 1).toNat).any
        (fun ch => ch ≠ '.') then
    String.mk (cs.drop dotIndex.toNat)
  else
    ""

/-- The `for i, doc in enumerate(docs)` loop of `process_file`
(`src/main.py` lines 104-110): attach `file_name`, `file_type`,
`page_number = i + 1`, `total_pages = total` to each page text, counting
from `start`. -/
def attach_metadata (fname ftype : String) (total : Nat) :
    Nat → List String → List Document
  | _, [] => []
  | i, c :: rest =>
      ⟨c, ⟨fname, ftype, i + 1, total⟩⟩ :: attach_metadata fname ftype total (i + 1) rest

/-- Result of `process_file`: the returned documents or the raised
`HTTPException`, plus whether the temporary file was unlinked
(the `os.unlink(temp_file.name)` call at `src/main.py` line 113). -/
structure ProcResult where
  result : Except HTTPException (List Document)
  temp_removed : Bool
deriving Repr

/-- `process_file` (`src/main.py` lines 77-120): write the upload to a
temporary file, pick `PyPDFLoader` for suffix `.pdf` and `TextLoader`
otherwise, load, attach metadata, unlink the temporary file and return the
documents; any loader exception is caught and re-raised as an
`HTTPException 500` naming the file, skipping the unlink. -/
def process_file (env : Env) (file : UploadFile) : ProcResult :=
  let suffix := lowerAscii (splitextSuffix file.filename)
  let outcome := if suffix = ".pdf" then env.pypdf_load file.content
                 else env.text_load file.content
  match outcome with
  | .err msg =>
      ⟨.error ⟨500, "Error processing file " ++ file.filename ++ ": " ++ msg⟩, false⟩
  | .ok pages =>
      ⟨.ok (attach_metadata file.filename (String.mk (suffix.toList.drop 1))
              pages.length 0 pages), true⟩

/-- Configuration passed to `RecursiveCharacterTextSplitter`
(`src/main.py` lines 139-144): chunk size 500, overlap 50, separator
priority paragraph, newline, sentence period, space, character. -/
structure SplitterConfig where
  chunk_size : Nat
  chunk_overlap : Nat
  separators : List String
deriving Repr, DecidableEq

/-- The splitter configuration literally present in `upload_documents`. -/
def text_splitter_config : SplitterConfig :=
  { chunk_size := 500
    chunk_overlap := 50
    separators := ["\n\n", "\n", ".", " ", ""] }

/-- Modelled from the spec: the chunking of one text by
`RecursiveCharacterTextSplitter.split_text`, which lives in the external
langchain library and is absent from `src/`.  The spec fixes only a
"size/overlap/separator policy" producing in-order fragments; modelled as
overlapping windows of `chunk_size` characters advancing by
`chunk_size - chunk_overlap`, the separator-guided placement of the exact
boundaries being library behaviour no claim depends on.  Empty text
produces no chunks, as in the library. -/
def chunkTextAux : Nat → List Char → List (List Char)
  | 0, _ => []
  | fuel + 1, cs =>
      if cs.length ≤ text_splitter_config.chunk_size then
        if cs.isEmpty then [] else [cs]
      else
        cs.take text_splitter_config.chunk_size ::
          chunkTextAux fuel
            (cs.drop (text_splitter_config.chunk_size - text_splitter_config.chunk_overlap))

/-- Chunk a text.  The fuel `cs.length` dominates the number of windows,
each of which consumes at least `chunk_size - chunk_overlap = 450`
characters, so the `0`-fuel fallback is never reached. -/
def chunkText (cs : List Char) : List (List Char) :=
  chunkTextAux cs.length cs

/-- `split_text` on a string: chunk its characters. -/
def split_text (text : String) : List String :=
  (chunkText text.toList).map String.mk

/-- `split_documents` (the langchain `TextSplitter.split_documents` /
`create_documents` contract, modelled from the spec): each document's text
is chunked and every chunk becomes a new document carrying a copy of the
originating document's metadata, in order. -/
def split_documents (docs : List Document) : List Document :=
  docs.flatMap fun d => (split_text d.page_content).map fun c => ⟨c, d.metadata⟩

/-- The timeout (seconds) wrapped around each file's processing:
`asyncio.wait_for(process_file(file), timeout=120)` (`src/main.py`
line 129). -/
def upload_timeout_seconds : Nat := 120

/-- One iteration of the upload loop (`src/main.py` lines 126-132): run
`process_file` under the timeout; expiry raises `HTTPException 408` naming
the file, any `HTTPException` from `process_file` propagates. -/
def run_file (env : Env) (file : UploadFile) : Except HTTPException (List Document) :=
  if env.exceeds_timeout file then
    .error ⟨408, "Processing timeout for file: " ++ file.filename⟩
  else (process_file env file).result

/-- The accumulation loop of `upload_documents` (`src/main.py`
lines 125-132): process the files in order, extending `documents` with
each file's pages; the first failure aborts the loop with its exception. -/
def collect_documents (env : Env) : List UploadFile → Except HTTPException (List Document)
  | [] => .ok []
  | f :: rest =>
      match run_file env f with
      | .error e => .error e
      | .ok ds =>
          match collect_documents env rest with
          | .error e => .error e
          | .ok tail => .ok (ds ++ tail)

/-- The JSON body returned by a successful upload (`src/main.py`
lines 156-160). -/
structure UploadResponse where
  message : String
  chunks_created : Nat
  total_pages : Nat
deriving Repr, DecidableEq

/-- `upload_documents` (`src/main.py` lines 122-165).  The vector store is
modelled as the list of chunks it holds; the handler returns the new store
contents together with either the response body or the raised
`HTTPException`.  Chunks reach the store through the single
`vector_store.add_documents(splits)` call, made only after every file has
been processed and the non-empty check has passed; an `HTTPException`
raised earlier is re-raised unchanged by the outer handler. -/
def upload_documents (env : Env) (store : List Document) (files : List UploadFile) :
    List Document × Except HTTPException UploadResponse :=
  match collect_documents env files with
  | .error e => (store, .error e)
  | .ok documents =>
      if documents.isEmpty then
        (store, .error ⟨400, "No documents were successfully processed"⟩)
      else
        let splits := split_documents documents
        (store ++ splits,
         .ok ⟨"Successfully processed " ++ toString files.length ++ " files",
              splits.length, documents.length⟩)

/-- The retriever configuration built at startup (`src/main.py`
lines 61-64): `search_kwargs={"k": 4}`, `search_type="mmr"`. -/
structure RetrieverConfig where
  k : Nat
  search_type : String
deriving Repr, DecidableEq

/-- The configuration literally passed to `vector_store.as_retriever` when
the QA chain is built at startup. -/
def qa_retriever_config : RetrieverConfig :=
  { k := 4, search_type := "mmr" }

/-- Result of running the external QA chain: the generated answer
(`result["result"]`) and the retrieved chunks
(`result["source_documents"]`). -/
structure ChainResult where
  result : String
  source_documents : List Document
deriving Repr, DecidableEq

/-- One element of the response's `sources` list (`src/main.py`
lines 184-187). -/
structure SourceInfo where
  content : String
  metadata : Metadata
deriving Repr, DecidableEq

/-- The JSON body returned by a successful query (`src/main.py`
lines 193-196). -/
structure QueryResponse where
  answer : String
  sources : List SourceInfo
deriving Repr, DecidableEq

/-- The instruction template wrapped around the question (`src/main.py`
lines 176-177), an f-string spanning two lines with the second line
indented by eight spaces. -/
def enhanced_question (question : String) : String :=
  "Based on the provided document content, " ++ question ++
    "\n        If the answer is not directly found in the documents, please say so instead of making up information."

/-- Result of the `query` handler: the HTTP outcome plus whether the QA
chain was invoked at all. -/
structure QueryOutcome where
  response : Except HTTPException QueryResponse
  chain_invoked : Bool

/-- `query` (`src/main.py` lines 167-199).  The module-level `qa_chain`
handle is `none` before startup initialization succeeds; the chain itself
is external, modelled as a function from the (enhanced) question to a
`ChainResult`.  When the handle is unset, the `HTTPException(500, "System
not initialized")` raised inside the `try` is caught by the handler's own
`except Exception` clause and re-raised as status 500 with `str(e)` as
detail, which for a starlette `HTTPException` is
`"{status_code}: {detail}"`. -/
def query (qa_chain : Option (String → ChainResult)) (question : String) : QueryOutcome :=
  match qa_chain with
  | none =>
      ⟨.error ⟨500, strOfExc ⟨500, "System not initialized"⟩⟩, false⟩
  | some chain =>
      let result := chain (enhanced_question question)
      ⟨.ok ⟨result.result,
            result.source_documents.map fun d => ⟨d.page_content, d.metadata⟩⟩,
       true⟩

/-! ### Concrete environments and inputs used by witnesses -/

/-- A plain-text environment: `TextLoader` yields one document holding the
whole file text; processing a file named `slow.txt` exceeds the timeout. -/
def envSlow : Env :=
  ⟨fun _ => .err "unused", fun c => .ok [c], fun f => f.filename == "slow.txt"⟩

/-- An environment whose PDF parse always fails with `parse error` and
whose text loads succeed. -/
def envBadPdf : Env :=
  ⟨fun _ => .err "parse error", fun c => .ok [c], fun _ => false⟩

/-- An environment whose PDF parser reports zero pages. -/
def envEmptyPdf : Env :=
  ⟨fun _ => .ok [], fun c => .ok [c], fun _ => false⟩

/-- An environment whose PDF parser reports two pages. -/
def envTwoPagePdf : Env :=
  ⟨fun _ => .ok ["p1", "p2"], fun c => .ok [c], fun _ => false⟩

/-- A small plain-text upload. -/
def notesTxt : UploadFile := ⟨"notes.txt", "hello"⟩

/-- An upload whose processing exceeds the timeout under `envSlow`. -/
def slowTxt : UploadFile := ⟨"slow.txt", "zzz"⟩

/-- A sample metadata value. -/
def sampleMeta : Metadata := ⟨"notes.txt", "txt", 1, 1⟩

/-- The per-file page-documents of a successful run under
`envTwoPagePdf`. -/
def pagesOf (f : UploadFile) : List Document :=
  match run_file envTwoPagePdf f with
  | .ok ds => ds
  | .error _ => []

/-- A QA chain returning one fixed source chunk. -/
def sampleChain : String → ChainResult :=
  fun _ => ⟨"the answer", [⟨"chunk one", sampleMeta⟩]⟩

/-! ### Helper lemmas -/

theorem attach_metadata_length (fname ftype : String) (total start : Nat)
    (pages : List String) :
    (attach_metadata fname ftype total start pages).length = pages.length := by
  induction pages generalizing start with
  | nil => rfl
  | cons c rest ih => simp [attach_metadata, ih]

theorem attach_metadata_get (fname ftype : String) (total start : Nat)
    (pages : List String) (i : Nat)
    (hi : i < (attach_metadata fname ftype total start pages).length) :
    (attach_metadata fname ftype total start pages).get ⟨i, hi⟩ =
      ⟨pages.getD i "", ⟨fname, ftype, start + i + 1, total⟩⟩ := by
  induction pages generalizing start i with
  | nil => simp [attach_metadata] at hi
  | cons c rest ih =>
      match i with
      | 0 => simp [attach_metadata]
      | j + 1 =>
          have hj : j < (attach_metadata fname ftype total (start + 1) rest).length := by
            simpa [attach_metadata] using hi
          have := ih (start + 1) j hj
          simp only [attach_metadata, List.get_cons_succ, List.getD_cons_succ]
          rw [this]
          congr 2
          omega

theorem chunkText_ne_nil (cs : List Char) (h : cs ≠ []) : chunkText cs ≠ [] := by
  obtain ⟨a, as, rfl⟩ := List.exists_cons_of_ne_nil h
  simp only [chunkText, List.length_cons, chunkTextAux]
  split
  · simp
  · simp

theorem split_text_ne_nil (s : String) (h : s ≠ "") : split_text s ≠ [] := by
  have hl : s.toList ≠ [] := by
    intro hl
    apply h
    cases s with
    | mk data =>
        simp only [String.toList] at hl
        subst hl
        rfl
  simp only [split_text, ne_eq, List.map_eq_nil_iff]
  exact chunkText_ne_nil _ hl

theorem collect_documents_error (env : Env) (pre : List UploadFile)
    (f : UploadFile) (post : List UploadFile) (e : HTTPException)
    (hpre : ∀ g ∈ pre, ∃ ds, run_file env g = .ok ds)
    (hf : run_file env f = .error e) :
    collect_documents env (pre ++ f :: post) = .error e := by
  induction pre with
  | nil => simp [collect_documents, hf]
  | cons g pre ih =>
      obtain ⟨ds, hg⟩ := hpre g (List.mem_cons_self g pre)
      have hrest := ih (fun g' hg' => hpre g' (List.mem_cons_of_mem g hg'))
      simp [collect_documents, hg, hrest]

theorem upload_documents_ok (env : Env) (store : List Document)
    (files : List UploadFile) (docs : List Document)
    (hcol : collect_documents env files = .ok docs) (hne : docs ≠ []) :
    upload_documents env store files =
      (store ++ split_documents docs,
       .ok ⟨"Successfully processed " ++ toString files.length ++ " files",
            (split_documents docs).length, docs.length⟩) := by
  simp [upload_documents, hcol, List.isEmpty_iff, hne]

theorem collect_documents_flatMap (env : Env) (files : List UploadFile)
    (pages : UploadFile → List Document)
    (h : ∀ f ∈ files, run_file env f = .ok (pages f)) :
    collect_documents env files = .ok (files.flatMap pages) := by
  induction files with
  | nil => rfl
  | cons f rest ih =>
      have hf := h f (List.mem_cons_self f rest)
      have hrest := ih (fun g hg => h g (List.mem_cons_of_mem f hg))
      simp [collect_documents, hf, hrest]

/-! ### Claims -/

/-- C1, counterexample: with an empty store, a batch whose first file is
processed successfully (and would have produced a chunk) and whose second
file times out leaves the vector store empty — the earlier file's chunks
are NOT persisted, contradicting the claim that they remain in the store. -/
theorem upload_failure_counterexample :
    run_file envSlow notesTxt = .ok [⟨"hello", sampleMeta⟩] ∧
    split_documents [⟨"hello", sampleMeta⟩] ≠ [] ∧
    upload_documents envSlow [] [notesTxt, slowTxt] =
      ([], .error ⟨408, "Processing timeout for file: slow.txt"⟩) :=
  ⟨rfl, by decide, rfl⟩

/-- C1, amended: if processing of any file in the batch fails (error or
timeout), no chunks at all are added to the vector store by that request —
documents from earlier files only accumulate in memory, and the single
`add_documents` call is never reached, so the store is left exactly as it
was. -/
theorem upload_failure_no_partial_persist (env : Env) (store : List Document)
    (files : List UploadFile) (e : HTTPException)
    (h : collect_documents env files = .error e) :
    upload_documents env store files = (store, .error e) := by
  simp [upload_documents, h]

/-- C1, witness for the amended theorem at a concrete failing batch. -/
theorem upload_failure_no_partial_persist_witness :
    upload_documents envSlow [] [notesTxt, slowTxt] =
      ([], .error ⟨408, "Processing timeout for file: slow.txt"⟩) :=
  upload_failure_no_partial_persist envSlow [] [notesTxt, slowTxt]
    ⟨408, "Processing timeout for file: slow.txt"⟩ rfl

/-- C2: on the failure path the temporary file is NOT removed — when the
loader raises (here: a PDF whose parse fails), `process_file` re-raises
`HTTPException 500` and the `os.unlink` call is skipped, leaving the
`delete=False` temporary file on disk; on the success path it is removed.
This exhibits the code bug: the claim (and the `# Clean up` intent) says
removal is unconditional. -/
theorem process_file_temp_leak :
    (process_file envBadPdf ⟨"bad.pdf", "pdfbytes"⟩).temp_removed = false ∧
    (process_file envBadPdf ⟨"bad.pdf", "pdfbytes"⟩).result =
      .error ⟨500, "Error processing file bad.pdf: parse error"⟩ ∧
    (process_file envBadPdf notesTxt).temp_removed = true :=
  ⟨rfl, rfl, rfl⟩

/-- C3: each file's processing is wrapped in the 120-second
`asyncio.wait_for` bound, and when a file's processing exceeds it — all
files before it having been processed successfully — the whole upload is
rejected with HTTP 408 and a detail message naming that file, the store
unchanged. -/
theorem upload_timeout_408 (env : Env) (store : List Document)
    (pre post : List UploadFile) (f : UploadFile)
    (hpre : ∀ g ∈ pre, ∃ ds, run_file env g = .ok ds)
    (hto : env.exceeds_timeout f = true) :
    upload_timeout_seconds = 120 ∧
    upload_documents env store (pre ++ f :: post) =
      (store, .error ⟨408, "Processing timeout for file: " ++ f.filename⟩) := by
  refine ⟨rfl, ?_⟩
  have hf : run_file env f =
      .error ⟨408, "Processing timeout for file: " ++ f.filename⟩ := by
    simp [run_file, hto]
  have hcol := collect_documents_error env pre f post _ hpre hf
  simp [upload_documents, hcol]

/-- C3, witness: a batch whose first file succeeds and whose second file
times out is rejected with 408 naming the second file. -/
theorem upload_timeout_408_witness :
    upload_timeout_seconds = 120 ∧
    upload_documents envSlow [] ([notesTxt] ++ slowTxt :: []) =
      ([], .error ⟨408, "Processing timeout for file: " ++ slowTxt.filename⟩) :=
  upload_timeout_408 envSlow [] [notesTxt] [] slowTxt
    (by
      intro g hg
      rw [List.mem_singleton] at hg
      subst hg
      exact ⟨_, rfl⟩)
    (by decide)

/-- C5: a query issued while the chain handle is unset gets HTTP 500 with
a detail message carrying "not initialized" (the raised exception is
re-wrapped by the handler's own `except` clause, prefixing the status),
and the QA chain — hence retrieval and generation — is never invoked. -/
theorem query_uninitialized_500 (question : String) :
    (query none question).response =
      .error ⟨500, "500: System not initialized"⟩ ∧
    (query none question).chain_invoked = false ∧
    List.IsInfix "not initialized".toList "500: System not initialized".toList :=
  ⟨rfl, rfl, ⟨"500: System ".toList, [], by decide⟩⟩

/-- C6: an upload batch that yields zero successfully processed documents
— the empty file list, or every file loading successfully to zero pages —
is rejected with HTTP 400 and leaves the vector store unchanged. -/
theorem upload_no_documents_400 :
    (∀ (env : Env) (store : List Document),
        upload_documents env store [] =
          (store, .error ⟨400, "No documents were successfully processed"⟩)) ∧
    (∀ (env : Env) (store : List Document) (files : List UploadFile),
        collect_documents env files = .ok [] →
        upload_documents env store files =
          (store, .error ⟨400, "No documents were successfully processed"⟩)) := by
  constructor
  · intro env store
    rfl
  · intro env store files h
    simp [upload_documents, h]

/-- C6, witness: a single zero-page PDF is processed successfully but
yields no documents, so the batch is rejected with 400 and the store is
untouched. -/
theorem upload_no_documents_400_witness :
    upload_documents envEmptyPdf [] [⟨"empty.pdf", "bytes"⟩] =
      ([], .error ⟨400, "No documents were successfully processed"⟩) :=
  upload_no_documents_400.2 envEmptyPdf [] [⟨"empty.pdf", "bytes"⟩] rfl

/-- C4: when the loader selected for a file succeeds with a list of page
texts, `process_file` returns one document per page (so for a PDF the
document count equals the page count the parser reported), the `i`-th
document (0-based `i`, 1-based in metadata) carrying
`page_number = i + 1`, `total_pages` equal to the page count, and the
page's text. -/
theorem process_file_page_metadata (env : Env) (file : UploadFile)
    (pages : List String)
    (hload : (if lowerAscii (splitextSuffix file.filename) = ".pdf"
              then env.pypdf_load file.content
              else env.text_load file.content) = .ok pages) :
    ∃ docs : List Document,
      process_file env file = ⟨.ok docs, true⟩ ∧
      docs.length = pages.length ∧
      ∀ (i : Nat) (hi : i < docs.length),
        (docs.get ⟨i, hi⟩).metadata.page_number = i + 1 ∧
        (docs.get ⟨i, hi⟩).metadata.total_pages = pages.length ∧
        (docs.get ⟨i, hi⟩).page_content = pages.getD i "" := by
  refine ⟨attach_metadata file.filename
      (String.mk ((lowerAscii (splitextSuffix file.filename)).toList.drop 1))
      pages.length 0 pages, ?_, attach_metadata_length _ _ _ _ _, ?_⟩
  · unfold process_file
    dsimp only
    rw [hload]
  · intro i hi
    rw [attach_metadata_get]
    simp

/-- C4, witness: a two-page PDF yields two documents with page numbers 1
and 2 and `total_pages = 2`. -/
theorem process_file_page_metadata_witness :
    ∃ docs : List Document,
      process_file envTwoPagePdf ⟨"doc.pdf", "bytes"⟩ = ⟨.ok docs, true⟩ ∧
      docs.length = (["p1", "p2"] : List String).length ∧
      ∀ (i : Nat) (hi : i < docs.length),
        (docs.get ⟨i, hi⟩).metadata.page_number = i + 1 ∧
        (docs.get ⟨i, hi⟩).metadata.total_pages =
          (["p1", "p2"] : List String).length ∧
        (docs.get ⟨i, hi⟩).page_content =
          (["p1", "p2"] : List String).getD i "" :=
  process_file_page_metadata envTwoPagePdf ⟨"doc.pdf", "bytes"⟩ ["p1", "p2"] rfl

/-- C7: the splitter configuration in `upload_documents` is chunk size
500, overlap 50, separators paragraph (`"\n\n"`), newline, sentence period,
space, character (`""`); splitting is order-preserving — the chunks of the
first document precede, in their own order, the chunks of the rest — and
every chunk carries the metadata of its originating document unaltered. -/
theorem splitter_config_order_metadata :
    text_splitter_config = ⟨500, 50, ["\n\n", "\n", ".", " ", ""]⟩ ∧
    (∀ (d : Document) (docs : List Document),
        split_documents (d :: docs) =
          ((split_text d.page_content).map fun c => ⟨c, d.metadata⟩) ++
            split_documents docs) ∧
    (∀ docs : List Document, ∀ c ∈ split_documents docs,
        ∃ d ∈ docs, c.metadata = d.metadata ∧
          c.page_content ∈ split_text d.page_content) := by
  refine ⟨rfl, ?_, ?_⟩
  · intro d docs
    simp [split_documents]
  · intro docs c hc
    simp only [split_documents, List.mem_flatMap, List.mem_map] at hc
    obtain ⟨d, hd, c', hc', rfl⟩ := hc
    exact ⟨d, hd, rfl, hc'⟩

/-- C7, witness: the provenance clause applied to a concrete document and
chunk. -/
theorem splitter_order_metadata_witness :
    ∃ d ∈ [(⟨"hello", sampleMeta⟩ : Document)],
      (⟨"hello", sampleMeta⟩ : Document).metadata = d.metadata ∧
      (⟨"hello", sampleMeta⟩ : Document).page_content ∈
        split_text d.page_content :=
  splitter_config_order_metadata.2.2 [⟨"hello", sampleMeta⟩]
    ⟨"hello", sampleMeta⟩ (by decide)

/-- C8: uploading a single plain-text file (non-`.pdf` suffix) whose text
load succeeds within the timeout and whose content is non-empty yields a
successful response with `chunks_created ≥ 1` and `total_pages = 1`. -/
theorem upload_plain_text_counts (env : Env) (store : List Document)
    (file : UploadFile)
    (hsuf : lowerAscii (splitextSuffix file.filename) ≠ ".pdf")
    (htxt : env.text_load file.content = .ok [file.content])
    (hto : env.exceeds_timeout file = false)
    (hne : file.content ≠ "") :
    ∃ resp : UploadResponse,
      (upload_documents env store [file]).2 = .ok resp ∧
      1 ≤ resp.chunks_created ∧ resp.total_pages = 1 := by
  have hproc : process_file env file =
      ⟨.ok [⟨file.content, ⟨file.filename,
          String.mk ((lowerAscii (splitextSuffix file.filename)).toList.drop 1),
          1, 1⟩⟩], true⟩ := by
    unfold process_file
    dsimp only
    rw [if_neg hsuf, htxt]
    rfl
  have hrun : run_file env file = .ok [⟨file.content, ⟨file.filename,
      String.mk ((lowerAscii (splitextSuffix file.filename)).toList.drop 1),
      1, 1⟩⟩] := by
    simp [run_file, hto, hproc]
  have hcol : collect_documents env [file] = .ok [⟨file.content,
      ⟨file.filename,
       String.mk ((lowerAscii (splitextSuffix file.filename)).toList.drop 1),
       1, 1⟩⟩] := by
    simp [collect_documents, hrun]
  rw [upload_documents_ok env store [file] _ hcol (by simp)]
  refine ⟨_, rfl, ?_, rfl⟩
  have hche : split_text file.content ≠ [] := split_text_ne_nil _ hne
  simp only [split_documents, List.flatMap_cons, List.flatMap_nil,
    List.append_nil, List.length_map]
  exact Nat.one_le_iff_ne_zero.mpr
    (fun h0 => hche (List.eq_nil_of_length_eq_zero h0))

/-- C8, witness: uploading `notes.txt` containing `hello` gives one chunk
and one page. -/
theorem upload_plain_text_counts_witness :
    ∃ resp : UploadResponse,
      (upload_documents envSlow [] [notesTxt]).2 = .ok resp ∧
      1 ≤ resp.chunks_created ∧ resp.total_pages = 1 :=
  upload_plain_text_counts envSlow [] notesTxt (by decide) rfl rfl (by decide)

/-- C9: the retriever the QA chain is built with is configured for top-4
MMR (diversity-aware) search, and a query with an initialized chain
answers with the chain's generated text and a `sources` list reproducing
the retrieved chunks verbatim — same length, and element-wise the chunk's
content and metadata, in order. -/
theorem retriever_config_and_sources :
    qa_retriever_config.k = 4 ∧
    qa_retriever_config.search_type = "mmr" ∧
    ∀ (chain : String → ChainResult) (question : String),
      ∃ r : QueryResponse,
        (query (some chain) question).response = .ok r ∧
        (query (some chain) question).chain_invoked = true ∧
        r.answer = (chain (enhanced_question question)).result ∧
        r.sources.length =
          (chain (enhanced_question question)).source_documents.length ∧
        ∀ (i : Nat) (hi : i < r.sources.length)
          (hi' : i < (chain (enhanced_question question)).source_documents.length),
          (r.sources.get ⟨i, hi⟩).content =
            ((chain (enhanced_question question)).source_documents.get
              ⟨i, hi'⟩).page_content ∧
          (r.sources.get ⟨i, hi⟩).metadata =
            ((chain (enhanced_question question)).source_documents.get
              ⟨i, hi'⟩).metadata := by
  refine ⟨rfl, rfl, ?_⟩
  intro chain question
  refine ⟨_, rfl, rfl, rfl, by simp [query], ?_⟩
  intro i hi hi'
  constructor <;> simp

/-- C9, witness: the query clause instantiated at a concrete chain and
question. -/
theorem retriever_config_and_sources_witness :
    ∃ r : QueryResponse,
      (query (some sampleChain) "q").response = .ok r ∧
      (query (some sampleChain) "q").chain_invoked = true ∧
      r.answer = (sampleChain (enhanced_question "q")).result ∧
      r.sources.length =
        (sampleChain (enhanced_question "q")).source_documents.length ∧
      ∀ (i : Nat) (hi : i < r.sources.length)
        (hi' : i < (sampleChain (enhanced_question "q")).source_documents.length),
        (r.sources.get ⟨i, hi⟩).content =
          ((sampleChain (enhanced_question "q")).source_documents.get
            ⟨i, hi'⟩).page_content ∧
        (r.sources.get ⟨i, hi⟩).metadata =
          ((sampleChain (enhanced_question "q")).source_documents.get
            ⟨i, hi'⟩).metadata :=
  retriever_config_and_sources.2.2 sampleChain "q"

/-- C10: for a batch in which every file is processed successfully and at
least one page-document results, the response's `total_pages` is the sum
over the files of their per-file page-document counts. -/
theorem upload_total_pages_sum (env : Env) (store : List Document)
    (files : List UploadFile) (pages : UploadFile → List Document)
    (h : ∀ f ∈ files, run_file env f = .ok (pages f))
    (hne : files.flatMap pages ≠ []) :
    ∃ resp : UploadResponse,
      (upload_documents env store files).2 = .ok resp ∧
      resp.total_pages = (files.map fun f => (pages f).length).sum := by
  have hcol := collect_documents_flatMap env files pages h
  rw [upload_documents_ok env store files _ hcol hne]
  refine ⟨_, rfl, ?_⟩
  simp only [List.length_flatMap]
  rfl

/-- C10, witness: a two-page PDF plus a one-page text file give
`total_pages = 3 = 2 + 1`. -/
theorem upload_total_pages_sum_witness :
    ∃ resp : UploadResponse,
      (upload_documents envTwoPagePdf [] [⟨"doc.pdf", "bytes"⟩, notesTxt]).2 =
        .ok resp ∧
      resp.total_pages =
        (([⟨"doc.pdf", "bytes"⟩, notesTxt] : List UploadFile).map
          fun f => (pagesOf f).length).sum :=
  upload_total_pages_sum envTwoPagePdf [] [⟨"doc.pdf", "bytes"⟩, notesTxt] pagesOf
    (by
      intro f hf
      rw [List.mem_cons, List.mem_singleton] at hf
      rcases hf with rfl | rfl
      · rfl
      · rfl)
    (by decide)

end Rag
